import Mathlib

/-!
Verification of the movie-matching frontend and its specified core.

The repository is a Next.js frontend over a Flask backend.  The frontend
TypeScript (API routes, the recommendations component, the home page and the
chat route) is embedded directly from the source.  The matching-and-ranking
core (interval library, scorer, group aggregator) lives in the Python backend,
which is not part of the available source tree; those definitions are modelled
from the specification and are marked as such in their doc comments.
-/

/- ------------------------------------------------------------------ -/
/- Group aggregator (spec-modelled)                                    -/
/- ------------------------------------------------------------------ -/

/-- Modelled from the spec: the fixed fairness penalty `λ` (default 0.25) of
the group-score formula in §4.4; the backend aggregator is not in the
available source tree. -/
noncomputable def fairnessPenalty : ℝ := 1/4

/-- Modelled from the spec: arithmetic mean of the present scores `S`
(§4.4, group-score formula). -/
noncomputable def mean (S : List ℝ) : ℝ := S.sum / S.length

/-- Modelled from the spec: population variance of the present scores `S`,
the square of the `stdev` of §4.4 (the spec's own Scenario B arithmetic,
`stdev = 0.5` for scores `1.0, 0.0`, is the population deviation). -/
noncomputable def variance (S : List ℝ) : ℝ := (S.map (fun x => (x - mean S)^2)).sum / S.length

/-- Modelled from the spec: standard deviation of the present scores `S`
(§4.4, group-score formula). -/
noncomputable def stdev (S : List ℝ) : ℝ := Real.sqrt (variance S)

/-- Modelled from the spec: clamping of the group score to `[0,1]` (§4.4). -/
noncomputable def clamp01 (x : ℝ) : ℝ := max 0 (min 1 x)

/-- Modelled from the spec: normalization of a rating to `[0,1]` via
`score / max_scale` (§4.3); the backend scorer is not in the available
source tree. -/
noncomputable def normalizeScore (score maxScale : ℝ) : ℝ := score / maxScale

/-- Modelled from the spec: the group-score of §4.4.  `S` is the list of
present per-user scores; an empty `S` excludes the movie (`none`), otherwise
the score is `mean(S) − λ·stdev(S)` clamped to `[0,1]`. -/
noncomputable def groupScore (S : List ℝ) : Option ℝ :=
  if S = [] then none else some (clamp01 (mean S - fairnessPenalty * stdev S))

/- ------------------------------------------------------------------ -/
/- Interval library (spec-modelled)                                    -/
/- ------------------------------------------------------------------ -/

/-- Modelled from the spec: a half-open time interval `[s, e)` (§4.1); the
backend interval library is not in the available source tree.  Timestamps
are integers. -/
structure Iv where
  s : ℤ
  e : ℤ
deriving DecidableEq, Repr

/-- Modelled from the spec: the overlap of two half-open intervals; a
zero-length (or empty) result is dropped (§4.1). -/
def overlap (a b : Iv) : Option Iv :=
  if max a.s b.s < min a.e b.e then some ⟨max a.s b.s, min a.e b.e⟩ else none

/-- Modelled from the spec: `intersect(A,B)` of two interval sets — the
intervals present in both sets, i.e. the non-empty overlaps of one interval
from each side (§4.1). -/
def inter2 (A B : List Iv) : List Iv :=
  A.flatMap (fun a => B.filterMap (fun b => overlap a b))

/-- Modelled from the spec: `intersect` of a list of interval sets as a
pairwise fold — intersect(A,B), then intersect(result,C), … (§4.1). -/
def interAll : List (List Iv) → List Iv
  | [] => []
  | A :: rest => rest.foldl inter2 A

/-- Flat three-way overlap, folded in the same left-to-right direction as
`interAll`; used to characterize membership in a three-set intersection. -/
def overlap3 (a b c : Iv) : Option Iv :=
  if max (max a.s b.s) c.s < min (min a.e b.e) c.e then
    some ⟨max (max a.s b.s) c.s, min (min a.e b.e) c.e⟩
  else none

/- ------------------------------------------------------------------ -/
/- Façade routes (from src/frontend/src/app/api/...)                   -/
/- ------------------------------------------------------------------ -/

/-- Outcome of an external `fetch` as seen by a route handler: a parsed
payload on success, or one of the failure modes listed in the claim
(non-OK response, network failure, abort/timeout).  In the TypeScript
source the three failure modes all reach the `catch` block. -/
inductive FetchOutcome (α : Type) where
  | ok (data : α)
  | httpError
  | networkFailure
  | timedOut
deriving DecidableEq

/-- A calendar event as produced by `app/api/calendar/route.ts`
(fields `id`, `title`, `start`, `end`, `description`; `end` is renamed
`end_` because it is a Lean keyword). -/
structure CalEvent where
  id : String
  title : String
  start : String
  end_ : String
  description : String
deriving DecidableEq, Repr

/-- The hard-coded mock payload of the `catch` block of
`app/api/calendar/route.ts`. -/
def calendarMockData : List CalEvent :=
  [⟨"1", "Movie Night: Perfect Days", "2025-11-11T19:15:00Z",
    "2025-11-11T21:30:00Z", "At Rialto VU with friends"⟩,
   ⟨"2", "Dinner before movie", "2025-11-11T17:30:00Z",
    "2025-11-11T19:00:00Z", "Restaurant near Rialto VU"⟩,
   ⟨"3", "The Boy and the Heron screening", "2025-11-12T20:45:00Z",
    "2025-11-12T23:00:00Z", "At The Movies Amsterdam"⟩]

/-- The `GET` handler of `app/api/calendar/route.ts`: it fetches the backend
calendar; a non-OK response is thrown, and every thrown error (including
network failure and the 15-second abort) lands in the `catch` block, which
responds with `calendarMockData`. -/
def calendarGET (r : FetchOutcome (List CalEvent)) : List CalEvent :=
  match r with
  | .ok data => data
  | .httpError => calendarMockData
  | .networkFailure => calendarMockData
  | .timedOut => calendarMockData

/-- A Cineville showtime entry as produced by `app/api/cineville/route.ts`
(fields `title`, `location`, `theater`, `showtime`). -/
structure CineMovie where
  title : String
  location : String
  theater : String
  showtime : String
deriving DecidableEq, Repr

/-- The hard-coded mock payload of the `catch` block of
`app/api/cineville/route.ts`. -/
def cinevilleMockData : List CineMovie :=
  [⟨"Poor Things", "Amsterdam", "Eye Filmmuseum", "2025-11-10T20:30:00Z"⟩,
   ⟨"The Zone of Interest", "Amsterdam", "Kriterion", "2025-11-10T21:00:00Z"⟩,
   ⟨"Perfect Days", "Amsterdam", "Rialto VU", "2025-11-11T19:15:00Z"⟩,
   ⟨"The Boy and the Heron", "Amsterdam", "The Movies", "2025-11-11T20:45:00Z"⟩]

/-- The `GET` handler of `app/api/cineville/route.ts`: it fetches the backend
catalog with a 10-second abort signal; a non-OK response is thrown, and every
thrown error lands in the `catch` block, which responds with
`cinevilleMockData`. -/
def cinevilleGET (r : FetchOutcome (List CineMovie)) : List CineMovie :=
  match r with
  | .ok data => data
  | .httpError => cinevilleMockData
  | .networkFailure => cinevilleMockData
  | .timedOut => cinevilleMockData

/-- One `fetch` call site in the frontend source, with the timeout it
configures (`none` when the call sets no `AbortSignal` and no timer). -/
structure FetchSite where
  name : String
  timeoutMs : Option Nat
deriving DecidableEq, Repr

/-- Every external `fetch` call site of the frontend source with its
configured timeout, read off the TypeScript: the three Next.js API-route
proxies set 15000 ms (calendar; via `AbortController` plus `setTimeout`),
10000 ms (cineville) and 10000 ms (letterboxd; both via
`AbortSignal.timeout`); the browser-side service calls in
`services/api.ts` and the Hugging Face call in `app/api/chat/route.ts`
pass no signal and no timer at all. -/
def frontendFetchSites : List FetchSite :=
  [⟨"calendar route GET", some 15000⟩,
   ⟨"cineville route GET", some 10000⟩,
   ⟨"letterboxd route GET", some 10000⟩,
   ⟨"api.getCalendarAuth", none⟩,
   ⟨"api.getCalendarFreeSlots", none⟩,
   ⟨"api.getUserProfile", none⟩,
   ⟨"api.getUserRatings", none⟩,
   ⟨"api.getMovieRecommendations", none⟩,
   ⟨"api.getCinevilleMovies", none⟩,
   ⟨"chat route queryHuggingFace", none⟩]

/-- The tiered timeout policy documented in `CALENDAR_TIMEOUT_FIX.md`
(token refresh 10 s, calendar API 30 s, frontend proxy 15 s), as
(name, milliseconds) pairs. -/
def documentedTimeoutPolicy : List (String × Nat) :=
  [("token refresh", 10000), ("calendar API", 30000), ("frontend", 15000)]

/- ------------------------------------------------------------------ -/
/- Service layer (from src/frontend/src/services/api.ts)               -/
/- ------------------------------------------------------------------ -/

/-- The option bag accepted by `api.getMovieRecommendations`; every field
is optional, mirroring the TypeScript `options` parameter. -/
structure RecOptions where
  daysAhead : Option Int := none
  limitAmsterdam : Option Bool := none
  maxResults : Option Int := none
  useCalendar : Option Bool := none
  minSlotMinutes : Option Int := none
  mood : Option String := none
deriving DecidableEq, Repr

/-- The query parameters built by `api.getMovieRecommendations`: `usernames`
joined with commas, then each defined option stringified, in the object's
field order.  `mood` is spread under a truthiness test (`options.mood &&`),
so an empty-string mood is omitted like an undefined one. -/
def recQueryParams (usernames : List String) (o : RecOptions) : List (String × String) :=
  [("usernames", String.intercalate "," usernames)]
  ++ (match o.daysAhead with | some n => [("daysAhead", toString n)] | none => [])
  ++ (match o.limitAmsterdam with | some b => [("limitAmsterdam", toString b)] | none => [])
  ++ (match o.maxResults with | some n => [("maxResults", toString n)] | none => [])
  ++ (match o.useCalendar with | some b => [("useCalendar", toString b)] | none => [])
  ++ (match o.minSlotMinutes with | some n => [("minSlotMinutes", toString n)] | none => [])
  ++ (match o.mood with | some m => if m = "" then [] else [("mood", m)] | none => [])

/-- What a service call does: issue the network fetch with some query
parameters, or reject the request with an error before fetching.  The
rejection branch exists only as a point of comparison with the spec; the
source never takes it. -/
inductive ApiAction where
  | fetchIssued (params : List (String × String))
  | rejected (err : String)
deriving DecidableEq, Repr

/-- Whether the action is a pre-fetch rejection. -/
def ApiAction.isRejection : ApiAction → Bool
  | .fetchIssued _ => false
  | .rejected _ => true

/-- The parameters carried by a `fetchIssued` action (empty for a
rejection). -/
def ApiAction.params : ApiAction → List (String × String)
  | .fetchIssued p => p
  | .rejected _ => []

/-- `api.getMovieRecommendations` from `services/api.ts`: it builds the
query parameters from whatever options it is handed and immediately issues
the fetch — the body contains no validation of any kind. -/
def getMovieRecommendations (usernames : List String) (o : RecOptions) : ApiAction :=
  .fetchIssued (recQueryParams usernames o)

/- ------------------------------------------------------------------ -/
/- Recommendations component (from src/unnamed/part_004) and home page -/
/- ------------------------------------------------------------------ -/

/-- A showtime record of the frontend type declarations
(`cinema`, `start`). -/
structure ShowTime where
  cinema : String
  start : String
deriving DecidableEq, Repr

/-- The `MovieRecommendation` record of the frontend type declarations:
`title`, optional `year`, `group_score`, `per_user_scores`, `showtimes`.
The opaque `cineville`/`tmdb` payloads (typed `any` in the source) carry no
structure the claims touch and are not modelled. -/
structure MovieRecommendation where
  title : String
  year : Option Int
  group_score : ℚ
  per_user_scores : List (String × ℚ)
  showtimes : List ShowTime
deriving DecidableEq, Repr

/-- `usernamesKey` of the `CinevilleRecommendations` component
(`src/unnamed/part_004`): the usernames sorted and joined with commas.
JavaScript's default `sort()` and Lean's `insertionSort` on `≤` both sort
strings by a lexicographic total order. -/
def usernamesKey (usernames : List String) : String :=
  String.intercalate "," (List.insertionSort (· ≤ ·) usernames)

/-- The key under which the home page (`app/page.tsx`) saves its
recommendations to localStorage: `usernames.sort().join(',')`. -/
def homePageUsernamesKey (usernames : List String) : String :=
  String.intercalate "," (List.insertionSort (· ≤ ·) usernames)

/-- `currentKey` computed by the home page when loading saved
recommendations: `parsedUsernames.sort().join(',')`, compared against the
saved key. -/
def currentKey (usernames : List String) : String :=
  String.intercalate "," (List.insertionSort (· ≤ ·) usernames)

/-- The component state touched by `fetchRecommendations`: the rendered
recommendation list, the error banner, and the `fetchedUsernamesRef` set of
already-fetched keys. -/
structure RecCompState where
  recommendations : List MovieRecommendation
  error : Option String
  fetchedKeys : Finset String
deriving DecidableEq

/-- `fetchRecommendations` of the `CinevilleRecommendations` component,
as a state transition.  `result` stands for the awaited
`api.getMovieRecommendations` call: `.ok data` when it resolves, `.error e`
when it throws (the `catch` branch).  The returned flag reports whether the
network fetch was issued.  Mirrors the source: an empty username list
clears the list and returns; a cached key is skipped unless `force`;
otherwise the fetch runs, success stores the data, clears the error and
records the key, and failure only sets the error message. -/
def fetchRecommendations (st : RecCompState) (usernames : List String)
    (force : Bool) (result : Except String (List MovieRecommendation)) :
    RecCompState × Bool :=
  if usernames = [] then
    ({ st with recommendations := [] }, false)
  else if ¬force ∧ usernamesKey usernames ∈ st.fetchedKeys then
    (st, false)
  else
    match result with
    | .ok data =>
        ({ recommendations := data, error := none,
           fetchedKeys := insert (usernamesKey usernames) st.fetchedKeys }, true)
    | .error e => ({ st with error := some e }, true)

/-- `handleRefresh` of the component: it deletes the current key from
`fetchedUsernamesRef` and calls `fetchRecommendations(true)`. -/
def handleRefresh (st : RecCompState) (usernames : List String)
    (result : Except String (List MovieRecommendation)) :
    RecCompState × Bool :=
  fetchRecommendations
    { st with fetchedKeys := st.fetchedKeys.erase (usernamesKey usernames) }
    usernames true result

/- ------------------------------------------------------------------ -/
/- Group-score display (components and chat route)                     -/
/- ------------------------------------------------------------------ -/

/-- JavaScript's `toFixed(1)` on the non-negative scores at hand: round to
the nearest tenth (ties away from zero, which on non-negative input agrees
with Lean's `round`). -/
def toFixed1 (q : ℚ) : ℚ := ((round (q * 10) : ℤ) : ℚ) / 10

/-- A rendered score: the numeric value shown and the denominator label
printed after it. -/
structure ScoreDisplay where
  value : ℚ
  label : String
deriving DecidableEq, Repr

/-- The Group Score line of `CinevilleRecommendations`
(both `components/CinevilleRecommendations.tsx` and `src/unnamed/part_004`):
`(movie.group_score * 5).toFixed(1)` followed by the literal `/ 10`. -/
def renderGroupScore (g : ℚ) : ScoreDisplay :=
  ⟨toFixed1 (g * 5), "/ 10"⟩

/-- The Group Score line of `formatMovieData` in `app/api/chat/route.ts`:
`(movie.group_score * 5).toFixed(1)` followed by `/10`. -/
def chatFormatGroupScore (g : ℚ) : ScoreDisplay :=
  ⟨toFixed1 (g * 5), "/10"⟩

/-- The `score` field of the chat route's `POST` mapping:
`movie.group_score * 5` (the comment in the source reads
"Convert to 0-10 scale"). -/
def chatScore (g : ℚ) : ℚ := g * 5

/-- The key under which a request (usernames, options) is looked up in
`fetchedUsernamesRef` by the component: the source line
`fetchedUsernamesRef.current.has(usernamesKey)` consults `usernamesKey`
alone — the options of the request play no part in the lookup. -/
def cacheLookupKey (usernames : List String) (_options : RecOptions) : String :=
  usernamesKey usernames

/- ------------------------------------------------------------------ -/
/- Theorems                                                            -/
/- ------------------------------------------------------------------ -/

theorem mean_singleton (y : ℝ) : mean [y] = y := by
  simp [mean]

theorem stdev_singleton (y : ℝ) : stdev [y] = 0 := by
  have hv : variance [y] = 0 := by
    simp [variance, mean_singleton]
  rw [stdev, hv, Real.sqrt_zero]

theorem clamp01_eq_self (y : ℝ) (h0 : 0 ≤ y) (h1 : y ≤ 1) : clamp01 y = y := by
  rw [clamp01, min_eq_right h1, max_eq_right h0]

theorem mean_one_zero : mean [(1 : ℝ), 0] = 1/2 := by
  norm_num [mean]

theorem stdev_one_zero : stdev [(1 : ℝ), 0] = 1/2 := by
  have hv : variance [(1 : ℝ), 0] = 1/4 := by
    norm_num [variance, mean_one_zero]
  rw [stdev, hv, show (1 : ℝ)/4 = (1/2)^2 by norm_num,
    Real.sqrt_sq (by norm_num : (0 : ℝ) ≤ 1/2)]

/-- C1: for a non-empty present-score set `S` the group score is
`mean(S) − 0.25·stdev(S)` clamped to `[0,1]`, and for two users scoring the
same title `1.0` and `0.0` the group score is exactly `0.375`. -/
theorem groupScore_formula_and_scenarioB :
    (∀ S : List ℝ, S ≠ [] →
      groupScore S = some (clamp01 (mean S - fairnessPenalty * stdev S))) ∧
    groupScore [(1 : ℝ), 0] = some (3/8) := by
  constructor
  · intro S h
    simp [groupScore, h]
  · rw [groupScore, if_neg (by simp : ¬([(1 : ℝ), 0] = []))]
    rw [mean_one_zero, stdev_one_zero, fairnessPenalty,
      show (1 : ℝ)/2 - 1/4 * (1/2) = 3/8 by norm_num,
      clamp01_eq_self (3/8) (by norm_num) (by norm_num)]

/-- Witness for C1 at the concrete score list `[1, 0]`. -/
theorem groupScore_formula_witness :
    groupScore [(1 : ℝ), 0] =
      some (clamp01 (mean [(1 : ℝ), 0] - fairnessPenalty * stdev [(1 : ℝ), 0])) ∧
    groupScore [(1 : ℝ), 0] = some (3/8) :=
  ⟨groupScore_formula_and_scenarioB.1 [(1 : ℝ), 0] (by simp),
   groupScore_formula_and_scenarioB.2⟩

/-- C5: every produced group score lies in `[0,1]`, and a movie with a
single rater gets exactly that rater's normalized score. -/
theorem groupScore_bounds_and_single_rater :
    (∀ (S : List ℝ) (g : ℝ), groupScore S = some g → 0 ≤ g ∧ g ≤ 1) ∧
    (∀ score maxScale : ℝ, 0 < maxScale → 0 ≤ score → score ≤ maxScale →
      groupScore [normalizeScore score maxScale] =
        some (normalizeScore score maxScale)) := by
  constructor
  · intro S g h
    rw [groupScore] at h
    split at h
    · exact absurd h (by simp)
    · have hg : g = clamp01 (mean S - fairnessPenalty * stdev S) :=
        (Option.some_injective _ h).symm
      rw [hg, clamp01]
      constructor
      · exact le_max_left 0 _
      · exact max_le (by norm_num) (min_le_left 1 _)
  · intro score maxScale hm h0 h1
    have hn0 : 0 ≤ normalizeScore score maxScale := div_nonneg h0 hm.le
    have hn1 : normalizeScore score maxScale ≤ 1 := (div_le_one hm).mpr h1
    rw [groupScore,
      if_neg (by simp : ¬([normalizeScore score maxScale] = []))]
    rw [mean_singleton, stdev_singleton, mul_zero, sub_zero,
      clamp01_eq_self _ hn0 hn1]

/-- Witness for C5 at a concrete input: a single rater with rating `4` on
scale `5`; the produced score is bounded and equals the normalized score. -/
theorem groupScore_bounds_witness :
    (0 ≤ normalizeScore (4 : ℝ) 5 ∧ normalizeScore (4 : ℝ) 5 ≤ 1) ∧
    groupScore [normalizeScore (4 : ℝ) 5] = some (normalizeScore (4 : ℝ) 5) :=
  ⟨groupScore_bounds_and_single_rater.1 [normalizeScore (4 : ℝ) 5]
      (normalizeScore (4 : ℝ) 5)
      (groupScore_bounds_and_single_rater.2 4 5 (by norm_num) (by norm_num)
        (by norm_num)),
   groupScore_bounds_and_single_rater.2 4 5 (by norm_num) (by norm_num)
     (by norm_num)⟩

theorem mem_inter2 (A B : List Iv) (x : Iv) :
    x ∈ inter2 A B ↔ ∃ a ∈ A, ∃ b ∈ B, overlap a b = some x := by
  simp [inter2, List.mem_flatMap, List.mem_filterMap]

theorem overlap_overlap (a b c x : Iv) :
    (∃ y, overlap a b = some y ∧ overlap y c = some x) ↔
      overlap3 a b c = some x := by
  constructor
  · rintro ⟨y, h1, h2⟩
    rw [overlap] at h1
    split_ifs at h1 with hab
    cases h1
    rw [overlap] at h2
    split_ifs at h2 with habc
    cases h2
    rw [overlap3, if_pos habc]
  · intro h
    rw [overlap3] at h
    split_ifs at h with habc
    cases h
    have hab : max a.s b.s < min a.e b.e :=
      lt_of_le_of_lt (le_max_left _ _) (lt_of_lt_of_le habc (min_le_left _ _))
    exact ⟨⟨max a.s b.s, min a.e b.e⟩, by rw [overlap, if_pos hab],
      by rw [overlap, if_pos habc]⟩

theorem mem_interAll3 (A B C : List Iv) (x : Iv) :
    x ∈ interAll [A, B, C] ↔
      ∃ a ∈ A, ∃ b ∈ B, ∃ c ∈ C, overlap3 a b c = some x := by
  show x ∈ inter2 (inter2 A B) C ↔ _
  rw [mem_inter2]
  constructor
  · rintro ⟨y, hy, c, hc, hyc⟩
    rcases (mem_inter2 A B y).mp hy with ⟨a, ha, b, hb, hab⟩
    exact ⟨a, ha, b, hb, c, hc, (overlap_overlap a b c x).mp ⟨y, hab, hyc⟩⟩
  · rintro ⟨a, ha, b, hb, c, hc, h⟩
    rcases (overlap_overlap a b c x).mpr h with ⟨y, hab, hyc⟩
    exact ⟨y, (mem_inter2 A B y).mpr ⟨a, ha, b, hb, hab⟩, c, hc, hyc⟩

theorem overlap3_swap_ab (a b c : Iv) : overlap3 a b c = overlap3 b a c := by
  simp only [overlap3]
  rw [max_comm a.s b.s, min_comm a.e b.e]

theorem overlap3_swap_bc (a b c : Iv) : overlap3 a b c = overlap3 a c b := by
  simp only [overlap3]
  rw [max_assoc, max_comm b.s c.s, ← max_assoc,
    min_assoc, min_comm b.e c.e, ← min_assoc]

theorem overlap3_rot (a b c : Iv) : overlap3 a b c = overlap3 b c a := by
  rw [overlap3_swap_ab, overlap3_swap_bc]

/-- C4: the pairwise fold `intersect([A,B,C])` is order-independent — the
five non-identity orderings of the three interval sets yield the same set
of intervals as `[A,B,C]` (membership equivalence). -/
theorem intersect_order_independent (A B C : List Iv) (x : Iv) :
    (x ∈ interAll [A, B, C] ↔ x ∈ interAll [A, C, B]) ∧
    (x ∈ interAll [A, B, C] ↔ x ∈ interAll [B, A, C]) ∧
    (x ∈ interAll [A, B, C] ↔ x ∈ interAll [B, C, A]) ∧
    (x ∈ interAll [A, B, C] ↔ x ∈ interAll [C, A, B]) ∧
    (x ∈ interAll [A, B, C] ↔ x ∈ interAll [C, B, A]) := by
  simp only [mem_interAll3]
  refine ⟨⟨?_, ?_⟩, ⟨?_, ?_⟩, ⟨?_, ?_⟩, ⟨?_, ?_⟩, ⟨?_, ?_⟩⟩ <;>
    rintro ⟨u, hu, v, hv, w, hw, h⟩
  · exact ⟨u, hu, w, hw, v, hv, by rw [overlap3_swap_bc]; exact h⟩
  · exact ⟨u, hu, w, hw, v, hv, by rw [overlap3_swap_bc]; exact h⟩
  · exact ⟨v, hv, u, hu, w, hw, by rw [overlap3_swap_ab]; exact h⟩
  · exact ⟨v, hv, u, hu, w, hw, by rw [overlap3_swap_ab]; exact h⟩
  · exact ⟨v, hv, w, hw, u, hu, by rw [← overlap3_rot]; exact h⟩
  · exact ⟨w, hw, u, hu, v, hv, by rw [overlap3_rot]; exact h⟩
  · exact ⟨w, hw, u, hu, v, hv, by rw [overlap3_rot]; exact h⟩
  · exact ⟨v, hv, w, hw, u, hu, by rw [← overlap3_rot]; exact h⟩
  · exact ⟨w, hw, v, hv, u, hu, by rw [overlap3_swap_ab, ← overlap3_rot]; exact h⟩
  · exact ⟨w, hw, v, hv, u, hu, by rw [overlap3_swap_ab, ← overlap3_rot]; exact h⟩

/-- C2 counterexample: a timed-out calendar fetch and a non-OK cineville
fetch are answered with the hard-coded, non-empty mock payloads — and the
failure response is byte-identical to a confident success response carrying
the same data, so the degraded state is silently represented as confident
data rather than as an absent-data state. -/
theorem fetch_failure_mock_counterexample :
    calendarGET .timedOut = calendarMockData ∧
    calendarMockData ≠ [] ∧
    calendarGET .timedOut = calendarGET (.ok calendarMockData) ∧
    cinevilleGET .httpError = cinevilleMockData ∧
    cinevilleMockData ≠ [] ∧
    cinevilleGET .httpError = cinevilleGET (.ok cinevilleMockData) :=
  ⟨rfl, by simp [calendarMockData], rfl, rfl, by simp [cinevilleMockData], rfl⟩

/-- C2 amended: every external-fetch failure (non-OK response, network
failure, timeout) is caught by the route handler and the caller always
receives a well-formed response — but the fallback is the hard-coded
non-empty mock payload, not an absent-data state, so degraded results are
indistinguishable from confident data. -/
theorem fetch_failure_fallback :
    (∀ d, calendarGET (.ok d) = d) ∧
    calendarGET .httpError = calendarMockData ∧
    calendarGET .networkFailure = calendarMockData ∧
    calendarGET .timedOut = calendarMockData ∧
    (∀ d, cinevilleGET (.ok d) = d) ∧
    cinevilleGET .httpError = cinevilleMockData ∧
    cinevilleGET .networkFailure = cinevilleMockData ∧
    cinevilleGET .timedOut = cinevilleMockData :=
  ⟨fun _ => rfl, rfl, rfl, rfl, fun _ => rfl, rfl, rfl, rfl⟩

/-- C3 counterexample: the recommendations fetch and the chat-model fetch
are external fetches issued for a request, yet they configure no timeout at
all, so "every external fetch has its own finite timeout" fails; moreover
the calendar proxy's 15000 ms fits neither a ~10 s nor a ~30 s tier. -/
theorem fetch_timeout_missing_counterexample :
    (⟨"api.getMovieRecommendations", none⟩ : FetchSite) ∈ frontendFetchSites ∧
    (⟨"chat route queryHuggingFace", none⟩ : FetchSite) ∈ frontendFetchSites ∧
    (⟨"calendar route GET", some 15000⟩ : FetchSite) ∈ frontendFetchSites := by
  refine ⟨?_, ?_, ?_⟩ <;> simp [frontendFetchSites]

/-- C3 amended: the three Next.js API-route proxy fetches each have their
own finite timeout (15 s calendar, 10 s cineville, 10 s letterboxd), and the
repository documents a tiered policy of 10 s for token refresh and 30 s for
calendar-API calls (with 15 s for the frontend proxy); but the browser-side
service fetches and the chat-model fetch configure no timeout, so not every
external fetch is finitely bounded. -/
theorem route_fetch_timeouts :
    frontendFetchSites.filterMap (fun site => site.timeoutMs) =
      [15000, 10000, 10000] ∧
    (frontendFetchSites.filter
      (fun site => site.timeoutMs = none)).map FetchSite.name =
      ["api.getCalendarAuth", "api.getCalendarFreeSlots", "api.getUserProfile",
       "api.getUserRatings", "api.getMovieRecommendations",
       "api.getCinevilleMovies", "chat route queryHuggingFace"] ∧
    ("token refresh", 10000) ∈ documentedTimeoutPolicy ∧
    ("calendar API", 30000) ∈ documentedTimeoutPolicy := by
  refine ⟨rfl, rfl, ?_, ?_⟩ <;> simp [documentedTimeoutPolicy]

/-- C6 counterexample: a request with `maxResults = 0` is not rejected —
`getMovieRecommendations` serializes it into the query string and issues
the fetch. -/
theorem invalid_options_counterexample :
    getMovieRecommendations ["u1"] { maxResults := some 0 } =
      .fetchIssued [("usernames", "u1"), ("maxResults", "0")] ∧
    (getMovieRecommendations ["u1"] { maxResults := some 0 }).isRejection
      = false := by
  constructor
  · rfl
  · rfl

/-- C6 amended: `getMovieRecommendations` performs no validation — for
every username list and option bag it issues the fetch (never a pre-fetch
rejection), and whatever `maxResults` value is supplied, valid or not, is
passed through into the issued query string. -/
theorem options_pass_through_unvalidated :
    (∀ usernames o,
      (getMovieRecommendations usernames o).isRejection = false) ∧
    (∀ usernames o n, o.maxResults = some n →
      ("maxResults", toString n) ∈
        (getMovieRecommendations usernames o).params) := by
  constructor
  · intro usernames o
    rfl
  · intro usernames o n h
    simp [getMovieRecommendations, ApiAction.params, recQueryParams, h]

/-- Witness for C6's amended claim at the concrete invalid option
`maxResults = 0`. -/
theorem options_pass_through_witness :
    (getMovieRecommendations ["u1"] { maxResults := some 0 }).isRejection
      = false ∧
    ("maxResults", toString (0 : Int)) ∈
      (getMovieRecommendations ["u1"] { maxResults := some 0 }).params :=
  ⟨options_pass_through_unvalidated.1 ["u1"] { maxResults := some 0 },
   options_pass_through_unvalidated.2 ["u1"] { maxResults := some 0 } 0 rfl⟩

/-- C7 counterexample: two requests with the same usernames but different
options (different `maxResults`, hence genuinely different fetches) are
looked up under the one, identical cache entry — the lookup key contains no
options hash — and with that key cached both requests are skipped. -/
theorem cache_key_ignores_options_counterexample :
    ({ maxResults := some 5 } : RecOptions) ≠ { maxResults := some 10 } ∧
    getMovieRecommendations ["u1"] { maxResults := some 5 } ≠
      getMovieRecommendations ["u1"] { maxResults := some 10 } ∧
    cacheLookupKey ["u1"] { maxResults := some 5 } =
      cacheLookupKey ["u1"] { maxResults := some 10 } ∧
    (fetchRecommendations ⟨[], none, {usernamesKey ["u1"]}⟩ ["u1"] false
      (.ok [⟨"Poor Things", none, 1, [], []⟩])).2 = false ∧
    (fetchRecommendations ⟨[], none, {usernamesKey ["u1"]}⟩ ["u1"] false
      (.ok [⟨"Barbie", none, 1, [], []⟩])).2 = false := by
  refine ⟨by decide, by decide, rfl, ?_, ?_⟩ <;> rfl

/-- C7 amended: the client cache is keyed by the sorted usernames alone —
the options of a request never enter the lookup key, so same-username
requests with different options share one entry — while a forced refresh
does explicitly invalidate the entry (the key is deleted from the fetched
set) and refetches. -/
theorem cache_key_and_refresh :
    (∀ usernames o₁ o₂,
      cacheLookupKey usernames o₁ = cacheLookupKey usernames o₂) ∧
    (∀ st usernames r, usernames ≠ [] →
      (handleRefresh st usernames r).2 = true ∧
      usernamesKey usernames ∉
        st.fetchedKeys.erase (usernamesKey usernames)) := by
  constructor
  · intro usernames o₁ o₂
    rfl
  · intro st usernames r hu
    constructor
    · cases r <;> simp [handleRefresh, fetchRecommendations, hu]
    · exact Finset.not_mem_erase _ _

/-- Witness for C7's amended claim: a concrete nonempty username list, a
cache holding that key, and a resolving fetch. -/
theorem cache_key_and_refresh_witness :
    cacheLookupKey ["u1"] { maxResults := some 5 } =
      cacheLookupKey ["u1"] { maxResults := some 10 } ∧
    (handleRefresh ⟨[], none, {usernamesKey ["u1"]}⟩ ["u1"] (.ok [])).2
      = true ∧
    usernamesKey ["u1"] ∉
      ({usernamesKey ["u1"]} : Finset String).erase (usernamesKey ["u1"]) :=
  ⟨cache_key_and_refresh.1 ["u1"] _ _,
   (cache_key_and_refresh.2 ⟨[], none, {usernamesKey ["u1"]}⟩ ["u1"] (.ok [])
     (by simp)).1,
   (cache_key_and_refresh.2 ⟨[], none, {usernamesKey ["u1"]}⟩ ["u1"] (.ok [])
     (by simp)).2⟩

/-- C8: an empty username list yields an empty rendered recommendation
list, and a fetch that resolves with an empty post-filter candidate set
yields an empty rendered list with no error set — never a thrown error
(the transition is total). -/
theorem empty_candidates_empty_list :
    (∀ st force r,
      (fetchRecommendations st [] force r).1.recommendations = []) ∧
    (∀ st usernames force, usernames ≠ [] →
      (force = true ∨ usernamesKey usernames ∉ st.fetchedKeys) →
      (fetchRecommendations st usernames force (.ok [])).1.recommendations
          = [] ∧
      (fetchRecommendations st usernames force (.ok [])).1.error = none) := by
  constructor
  · intro st force r
    rfl
  · intro st usernames force hu hc
    have hskip : ¬(¬force ∧ usernamesKey usernames ∈ st.fetchedKeys) := by
      rcases hc with hf | hk
      · simp [hf]
      · exact fun h => hk h.2
    rw [fetchRecommendations, if_neg hu, if_neg hskip]
    exact ⟨rfl, rfl⟩

/-- Witness for C8 at concrete inputs: the empty username list, and a
nonempty username list with an uncached key whose fetch resolves empty. -/
theorem empty_candidates_witness :
    (fetchRecommendations ⟨[], none, ∅⟩ [] false (.ok [])).1.recommendations
        = [] ∧
    (fetchRecommendations ⟨[], none, ∅⟩ ["u1"] false
      (.ok [])).1.recommendations = [] ∧
    (fetchRecommendations ⟨[], none, ∅⟩ ["u1"] false (.ok [])).1.error
        = none :=
  ⟨empty_candidates_empty_list.1 ⟨[], none, ∅⟩ false (.ok []),
   (empty_candidates_empty_list.2 ⟨[], none, ∅⟩ ["u1"] false (by simp)
     (Or.inr (by simp))).1,
   (empty_candidates_empty_list.2 ⟨[], none, ∅⟩ ["u1"] false (by simp)
     (Or.inr (by simp))).2⟩

/-- C9: the client cache key is the sorted, comma-joined username list, so
it is invariant under permutation of the usernames, and the recommendations
component's key, the home page's save key and the home page's load key all
agree — a set saved under one ordering is found under any other. -/
theorem usernamesKey_perm_invariant :
    ∀ l₁ l₂ : List String, l₁.Perm l₂ →
      usernamesKey l₁ = usernamesKey l₂ ∧
      usernamesKey l₁ = homePageUsernamesKey l₂ ∧
      homePageUsernamesKey l₁ = currentKey l₂ := by
  intro l₁ l₂ h
  have hs : List.insertionSort (· ≤ ·) l₁ = List.insertionSort (· ≤ ·) l₂ :=
    List.eq_of_perm_of_sorted
      ((List.perm_insertionSort _ l₁).trans
        (h.trans (List.perm_insertionSort _ l₂).symm))
      (List.sorted_insertionSort _ l₁) (List.sorted_insertionSort _ l₂)
  refine ⟨?_, ?_, ?_⟩
  · rw [usernamesKey, usernamesKey, hs]
  · rw [usernamesKey, homePageUsernamesKey, hs]
  · rw [homePageUsernamesKey, currentKey, hs]

/-- Witness for C9 at the concrete permutation `["b","a"] ~ ["a","b"]`. -/
theorem usernamesKey_perm_witness :
    usernamesKey ["b", "a"] = usernamesKey ["a", "b"] ∧
    usernamesKey ["b", "a"] = homePageUsernamesKey ["a", "b"] ∧
    homePageUsernamesKey ["b", "a"] = currentKey ["a", "b"] :=
  usernamesKey_perm_invariant ["b", "a"] ["a", "b"] (List.Perm.swap "a" "b" [])

/-- C10 counterexample: at the (reachable, Scenario-B) group score `0.375`
the rendered value is `toFixed(1)` of `1.875`, namely `1.9` — not `5`
times the group score. -/
theorem display_rounding_counterexample :
    (renderGroupScore (3/8)).value = 19/10 ∧
    (19/10 : ℚ) ≠ 5 * (3/8) := by
  have hr : round ((3 : ℚ)/8 * 5 * 10) = 19 := by
    rw [show (3 : ℚ)/8 * 5 * 10 = 75/4 by norm_num, round_eq,
      show (75 : ℚ)/4 + 1/2 = 77/4 by norm_num]
    apply Int.floor_eq_iff.mpr
    constructor <;> norm_num
  constructor
  · show toFixed1 (3/8 * 5) = 19/10
    rw [toFixed1, hr]
    norm_num
  · norm_num

/-- C10 amended: every Group Score display renders `group_score * 5`
rounded to one decimal and labels it out of 10 (`/ 10` in the components,
`/10` in the chat formatter); the displayed value equals `5 ×` the group
score exactly whenever that product has at most one decimal digit, the
maximal group score `1.0` is displayed as `5.0 / 10`, and the chat `POST`
mapping's `score` field is the exact, unrounded `group_score * 5`. -/
theorem display_scale_and_rounding :
    (∀ (g : ℚ) (z : ℤ), g * 5 * 10 = (z : ℚ) →
      (renderGroupScore g).value = g * 5 ∧
      (chatFormatGroupScore g).value = g * 5) ∧
    renderGroupScore 1 = ⟨5, "/ 10"⟩ ∧
    chatFormatGroupScore 1 = ⟨5, "/10"⟩ ∧
    (∀ g : ℚ, chatScore g = g * 5) := by
  have key : ∀ (g : ℚ) (z : ℤ), g * 5 * 10 = (z : ℚ) →
      toFixed1 (g * 5) = g * 5 := by
    intro g z h
    rw [toFixed1, h, round_intCast, ← h]
    ring
  refine ⟨fun g z h => ⟨key g z h, key g z h⟩, ?_, ?_, fun g => rfl⟩
  · show ScoreDisplay.mk (toFixed1 (1 * 5)) "/ 10" = _
    rw [key 1 50 (by norm_num), show (1 : ℚ) * 5 = 5 by norm_num]
  · show ScoreDisplay.mk (toFixed1 (1 * 5)) "/10" = _
    rw [key 1 50 (by norm_num), show (1 : ℚ) * 5 = 5 by norm_num]

/-- Witness for C10's amended claim at the concrete score `1/2`
(`1/2 * 5 * 10 = 25`, an integer). -/
theorem display_scale_witness :
    (renderGroupScore (1/2)).value = 1/2 * 5 ∧
    (chatFormatGroupScore (1/2)).value = 1/2 * 5 :=
  display_scale_and_rounding.1 (1/2) 25 (by norm_num)
